import Mathlib

/-!
Shallow embedding of the volume-controller content script
(`src/content.js`) of chrome-volume-controller.

Modelling choices:
* JS numbers carrying volumes are modelled as rationals (`ℚ`); the
  script only clamps, divides by 100 and stores them, so no float
  rounding is relevant to the verified properties.
* Media elements are identified by `Nat` (object identity).  The
  DOM-owned per-element data the script mutates (`element.volume`,
  the `audioSourceNode` expando, the `dataset` flag) lives in an
  `ElemState` map inside the script state.
* The `AudioContext` is `Option CtxState` (`none` = the `audioContext`
  variable is still `null`), the gain node is `Option ℚ` holding the
  current gain target set through `gain.value` / `setTargetAtTime`.
* Platform behaviour is passed in as parameters: `supported` (does
  `new AudioContext()` throw?), `connectOk e` (does
  `createMediaElementSource(e)` throw, e.g. for tainted media?),
  `attached e` (the DOM's `isConnected`), `docMedia`
  (`document.querySelectorAll('audio, video')` in document order) and
  `now` (`Date.now()`).
* Asynchronous `audioContext.resume()` calls are modelled two ways:
  synchronous entry points take a `resumeOk : Bool`, and the
  continuation-level interleaving of `setPageVolume` is modelled by an
  explicit event-loop machine (`Loop`) whose pending queue holds the
  continuations the script registers with `.then`; a rejected resume is
  the absence of the completion event (the `.catch` handlers only log).
-/

namespace VolumeController

/-- Volumes are JS numbers; modelled as rationals. -/
abbrev Vol := ℚ

/-- The states of the page's `AudioContext` (`audioContext.state`). -/
inductive CtxState
  | suspended
  | running
  | closed
deriving DecidableEq, Repr

/-- The DOM-owned data of one media element that the script reads or
writes: its intrinsic `volume`, the presence of the `audioSourceNode`
expando property, and the `dataset.volumeControllerConnected` flag. -/
structure ElemState where
  volume : Vol
  audioSourceNode : Bool
  volumeControllerConnected : Bool
deriving DecidableEq, Repr

/-- The mutable module-level state of the content script IIFE:
`currentVolume`, `audioContext`, `gainNode` (as its gain target),
`mediaElements`, the `connectedElements` weak set, `isCleanedUp`,
`lastMediaQuery` and `initializationAttempted`, plus the per-element
DOM state the script mutates. -/
structure S where
  currentVolume : Vol
  ctx : Option CtxState
  gain : Option Vol
  mediaElements : List Nat
  connected : List Nat
  isCleanedUp : Bool
  lastMediaQuery : Int
  initializationAttempted : Bool
  elems : Nat → ElemState

/-- `mediaQueryThrottleTime` (line 13): 500 ms. -/
def mediaQueryThrottleTime : Int := 500

/-- `initializeAudioContext` (lines 17–38).  A second call returns
`audioContext !== null` without touching anything.  On the first call,
if the platform supports audio processing the context is created in the
platform's start state and the gain node's value is initialised to
`currentVolume`; otherwise the constructor throws, the `catch` logs and
`false` is returned with `audioContext` still `null`. -/
def initializeAudioContext (supported : Bool) (startState : CtxState)
    (s : S) : Bool × S :=
  if s.initializationAttempted then (!s.ctx.isNone, s)
  else
    let s1 := { s with initializationAttempted := true }
    if supported then
      (true, { s1 with ctx := some startState, gain := some s1.currentVolume })
    else
      (false, s1)

/-- `connectElementToWebAudio` (lines 61–90).  Guard: missing context,
missing gain node or an element already in `connectedElements` yields
`false` with no state change.  An element carrying a foreign
`audioSourceNode` expando (but absent from the registry) returns `true`
with no state change.  Otherwise the element's volume is pinned to 1.0
first; then `createMediaElementSource` either succeeds (wire to gain,
record expando, add to registry, set dataset flag, return `true`) or
throws (`catch` logs, return `false`, the volume pin remains). -/
def connectElementToWebAudio (connectOk : Nat → Bool) (e : Nat)
    (s : S) : Bool × S :=
  if s.ctx.isNone || s.gain.isNone || s.connected.contains e then
    (false, s)
  else if (s.elems e).audioSourceNode then
    (true, s)
  else
    let s1 := { s with
      elems := fun x => if x = e then { s.elems x with volume := 1 } else s.elems x }
    if connectOk e then
      (true, { s1 with
        elems := fun x => if x = e then
            { volume := 1, audioSourceNode := true, volumeControllerConnected := true }
          else s1.elems x,
        connected := e :: s1.connected })
    else
      (false, s1)

/-- `findMediaElements` (lines 41–58).  Calls within
`mediaQueryThrottleTime` of the previous one return immediately.
Otherwise the timestamp is recorded, the document is scanned, elements
not already tracked are appended and each new element is connected
immediately. -/
def findMediaElements (connectOk : Nat → Bool) (now : Int)
    (docMedia : List Nat) (s : S) : S :=
  if now - s.lastMediaQuery < mediaQueryThrottleTime then s
  else
    let s0 := { s with lastMediaQuery := now }
    let newElements := docMedia.filter (fun e => !s0.mediaElements.contains e)
    let s1 := { s0 with mediaElements := s0.mediaElements ++ newElements }
    newElements.foldl (fun st e => (connectElementToWebAudio connectOk e st).2) s1

/-- `applyVolumeWithWebAudio` (lines 93–107).  Without a context and
gain node it warns and returns `false`; otherwise
`gain.setTargetAtTime(volume, …, 0.1)` re-targets the gain node (the
model stores the target) and it returns `true`. -/
def applyVolumeWithWebAudio (v : Vol) (s : S) : Bool × S :=
  if s.ctx.isNone || s.gain.isNone then (false, s)
  else (true, { s with gain := some v })

/-- The prune-then-connect body of `connectAllMediaElements`
(lines 153–161): drop tracked elements whose `isConnected` is false,
then connect every remaining element that is attached and not yet in
the registry. -/
def pruneAndConnect (connectOk : Nat → Bool) (attached : Nat → Bool)
    (s : S) : S :=
  let s1 := { s with mediaElements := s.mediaElements.filter attached }
  s1.mediaElements.foldl
    (fun st e =>
      if attached e && !st.connected.contains e then
        (connectElementToWebAudio connectOk e st).2
      else st) s1

/-- `connectAllMediaElements` (lines 136–162), with the `await
audioContext.resume()` collapsed into `resumeOk`: missing context or
gain node returns unchanged; a suspended context is resumed first
(failure returns unchanged, the `catch` logs); then disconnected
elements are pruned and the remainder connected. -/
def connectAllMediaElements (connectOk : Nat → Bool) (attached : Nat → Bool)
    (resumeOk : Bool) (s : S) : S :=
  if s.ctx.isNone || s.gain.isNone then s
  else if s.ctx = some .suspended then
    if resumeOk then
      pruneAndConnect connectOk attached { s with ctx := some .running }
    else s
  else pruneAndConnect connectOk attached s

/-- Lines 111–116 of `setPageVolume`: record the new Target Volume and
lazily initialise the audio context. -/
def recordAndInit (supported : Bool) (startState : CtxState)
    (v : Vol) (s : S) : S :=
  let s1 := { s with currentVolume := v }
  if s1.ctx.isNone then (initializeAudioContext supported startState s1).2 else s1

/-- `setPageVolume` (lines 110–133), synchronous view: records the new
`currentVolume`, lazily initialises the context, applies the volume
(resuming first when suspended, with the continuation's captured
argument — the interleaving-faithful version is the `Loop` machine
below), then discovers and connects media elements. -/
def setPageVolume (supported : Bool) (startState : CtxState)
    (connectOk : Nat → Bool) (attached : Nat → Bool)
    (docMedia : List Nat) (now : Int) (resumeOk : Bool)
    (v : Vol) (s : S) : S :=
  let s2 := recordAndInit supported startState v s
  let s3 :=
    if s2.ctx = some .suspended then
      if resumeOk then (applyVolumeWithWebAudio v { s2 with ctx := some .running }).2
      else s2
    else (applyVolumeWithWebAudio v s2).2
  let s4 := findMediaElements connectOk now docMedia s3
  connectAllMediaElements connectOk attached resumeOk s4

/-- The reconcile pass as invoked on every volume change (lines
131–132) and, elementwise, by the mutation watcher's flush: a
(throttled) re-discovery followed by `connectAllMediaElements`, whose
body prunes tracked elements no longer attached before connecting. -/
def reconcile (ok att : Nat → Bool) (doc : List Nat) (now : Int)
    (resumeOk : Bool) (s : S) : S :=
  connectAllMediaElements ok att resumeOk (findMediaElements ok now doc s)

/-- `Math.max(0, Math.min(5.0, request.volume))` (line 236). -/
def clampVolume (v : Vol) : Vol := max 0 (min 5 v)

/-- The response object sent by the message listener. -/
structure MsgResponse where
  success : Bool
  volume : Vol
deriving DecidableEq, Repr

/-- The `setVolume` branch of the message listener (lines 235–240):
clamp the requested volume to [0, 5], forward it to `setPageVolume`,
respond with `success: true` and the applied value. -/
def handleSetVolumeMessage (supported : Bool) (startState : CtxState)
    (connectOk : Nat → Bool) (attached : Nat → Bool)
    (docMedia : List Nat) (now : Int) (resumeOk : Bool)
    (v : Vol) (s : S) : MsgResponse × S :=
  let w := clampVolume v
  (⟨true, w⟩,
   setPageVolume supported startState connectOk attached docMedia now resumeOk w s)

/-- The `getVolume` branch of the message listener (lines 241–244). -/
def handleGetVolumeMessage (s : S) : MsgResponse :=
  ⟨true, s.currentVolume⟩

/-- `loadSavedVolume` (lines 282–298): the storage callback result for
key `volume_url_<hostname>` is `saved` (`none` when absent or when
`chrome.runtime.lastError` is set); when present, the 0–500 percent
value is divided by 100 and fed to `setPageVolume` unclamped. -/
def loadSavedVolume (supported : Bool) (startState : CtxState)
    (connectOk : Nat → Bool) (attached : Nat → Bool)
    (docMedia : List Nat) (now : Int) (resumeOk : Bool)
    (saved : Option Vol) (s : S) : S :=
  match saved with
  | none => s
  | some sv =>
      setPageVolume supported startState connectOk attached docMedia now resumeOk
        (sv / 100) s

/-- `cleanup` (lines 302–342).  A second call returns immediately via
`isCleanedUp`.  Otherwise: observer disconnected (not part of `S`),
a not-yet-closed context has `close()` initiated (modelled as reaching
`closed`), every tracked element gets its volume reset to 1.0 and its
`audioSourceNode` expando and dataset flag deleted, and the tracking
collections are emptied. -/
def cleanup (s : S) : S :=
  if s.isCleanedUp then s
  else
    let s1 := { s with isCleanedUp := true }
    let s2 := { s1 with
      ctx := match s1.ctx with
        | some _ => some CtxState.closed
        | none => none }
    let s3 := { s2 with
      elems := fun e =>
        if s2.mediaElements.contains e then
          { volume := 1, audioSourceNode := false, volumeControllerConnected := false }
        else s2.elems e }
    { s3 with mediaElements := [], connected := [] }

/-- `handleUserActivation` (lines 356–369), synchronous view: only a
suspended context does anything; resume it (failure logs and returns),
then re-apply `currentVolume` — read at continuation time — and run
`connectAllMediaElements`. -/
def handleUserActivation (connectOk : Nat → Bool) (attached : Nat → Bool)
    (resumeOk : Bool) (s : S) : S :=
  if s.ctx = some .suspended then
    if resumeOk then
      let s1 := { s with ctx := some .running }
      let s2 := (applyVolumeWithWebAudio s1.currentVolume s1).2
      connectAllMediaElements connectOk attached resumeOk s2
    else s
  else s

/-! ### Event-loop machine

The script registers continuations on `audioContext.resume()` promises:
`setPageVolume` registers `() => applyVolumeWithWebAudio(volume)` with
its *captured* argument (line 122), `connectAllMediaElements` continues
with the prune-and-connect body after its `await` (lines 145–161), and
`handleUserActivation` continues with
`applyVolumeWithWebAudio(currentVolume); connectAllMediaElements()`
(lines 359–364), reading `currentVolume` at continuation time.  All
such continuations attach to promises that resolve when the one
in-flight resume completes, and the platform runs them in registration
(FIFO) order.  A rejected resume is modelled by the completion event
never occurring: every `.catch` handler only logs. -/

/-- A continuation pending on the in-flight `resume()` promise. -/
inductive Payload
  | applyCaptured (v : Vol)
  | connectPending
  | gestureResume
deriving DecidableEq, Repr

/-- Script state plus the FIFO queue of continuations registered on the
in-flight resume. -/
structure Loop where
  s : S
  pending : List Payload

/-- Fixed platform parameters of a run. -/
structure Params where
  supported : Bool
  startState : CtxState
  connectOk : Nat → Bool
  attached : Nat → Bool

/-- The events interleaved on the page's event loop: a (pre-clamped)
volume request reaching `setPageVolume`, a user gesture reaching
`handleUserActivation`, a discovery/connection pass (`findMediaElements`
followed by `connectAllMediaElements`, as the mutation watcher's flush
and the volume path trigger it), and the platform completing the
in-flight resume. -/
inductive Ev
  | set (v : Vol) (docMedia : List Nat) (now : Int)
  | gesture
  | reconcile (docMedia : List Nat) (now : Int)
  | resumeDone

/-- Execute one pending continuation once the context is running. -/
def execPayload (P : Params) (s : S) : Payload → S
  | .applyCaptured v => (applyVolumeWithWebAudio v s).2
  | .connectPending =>
      if s.ctx.isNone || s.gain.isNone then s
      else pruneAndConnect P.connectOk P.attached s
  | .gestureResume =>
      let s1 := (applyVolumeWithWebAudio s.currentVolume s).2
      if s1.ctx.isNone || s1.gain.isNone then s1
      else pruneAndConnect P.connectOk P.attached s1

/-- `setPageVolume` as seen by the event loop.  With a suspended
context the volume application and the connection pass are deferred:
the closure capturing `volume` and then `connectAllMediaElements`'
continuation are appended to the pending queue.  Otherwise everything
runs synchronously. -/
def stepSet (P : Params) (v : Vol) (docMedia : List Nat) (now : Int)
    (L : Loop) : Loop :=
  let s2 := recordAndInit P.supported P.startState v L.s
  if s2.ctx = some .suspended then
    let s3 := findMediaElements P.connectOk now docMedia s2
    if s3.gain.isNone then ⟨s3, L.pending ++ [.applyCaptured v]⟩
    else ⟨s3, L.pending ++ [.applyCaptured v, .connectPending]⟩
  else
    let s3 := (applyVolumeWithWebAudio v s2).2
    let s4 := findMediaElements P.connectOk now docMedia s3
    let s5 := if s4.ctx.isNone || s4.gain.isNone then s4
              else pruneAndConnect P.connectOk P.attached s4
    ⟨s5, L.pending⟩

/-- `handleUserActivation` as seen by the event loop: with a suspended
context it calls `resume()` and registers its continuation. -/
def stepGesture (L : Loop) : Loop :=
  if L.s.ctx = some .suspended then ⟨L.s, L.pending ++ [.gestureResume]⟩
  else L

/-- A discovery/connection pass as seen by the event loop. -/
def stepReconcile (P : Params) (docMedia : List Nat) (now : Int)
    (L : Loop) : Loop :=
  let s1 := findMediaElements P.connectOk now docMedia L.s
  if s1.ctx.isNone || s1.gain.isNone then ⟨s1, L.pending⟩
  else if s1.ctx = some .suspended then ⟨s1, L.pending ++ [.connectPending]⟩
  else ⟨pruneAndConnect P.connectOk P.attached s1, L.pending⟩

/-- The in-flight resume completes: the context transitions
Suspended → Running and the registered continuations run in FIFO
order. -/
def stepResumeDone (P : Params) (L : Loop) : Loop :=
  if L.s.ctx = some .suspended then
    ⟨L.pending.foldl (execPayload P) { L.s with ctx := some .running }, []⟩
  else L

/-- Dispatch one event. -/
def stepEv (P : Params) (L : Loop) : Ev → Loop
  | .set v docMedia now => stepSet P v docMedia now L
  | .gesture => stepGesture L
  | .reconcile docMedia now => stepReconcile P docMedia now L
  | .resumeDone => stepResumeDone P L

/-- Run a trace of events. -/
def runLoop (P : Params) (trace : List Ev) (L : Loop) : Loop :=
  trace.foldl (stepEv P) L

/-- The state of the module variables at the top of the IIFE
(lines 5–14), before `initialize()` runs; `lastMediaQuery = 0`. -/
def initialS : S :=
  { currentVolume := 1
    ctx := none
    gain := none
    mediaElements := []
    connected := []
    isCleanedUp := false
    lastMediaQuery := 0
    initializationAttempted := false
    elems := fun _ => { volume := 1, audioSourceNode := false,
                        volumeControllerConnected := false } }

/-- The initial event-loop state: fresh module state, nothing pending. -/
def initialLoop : Loop := ⟨initialS, []⟩

/-- The gain value left once the pending continuations run, with the
Target Volume they observe fixed at `cur` (no continuation writes it):
a captured application overwrites the gain with its own argument, the
gesture continuation overwrites it with the current Target Volume, a
pending connection pass leaves it alone, and with no gain node nothing
changes. -/
def execGain (cur : Vol) : List Payload → Option Vol → Option Vol
  | [], g => g
  | pl :: p, g =>
      execGain cur p
        (match g, pl with
         | none, _ => none
         | some _, Payload.applyCaptured v => some v
         | some g0, Payload.connectPending => some g0
         | some _, Payload.gestureResume => some cur)

/-- The run invariant of the event-loop machine: context and gain node
exist together; continuations are pending only while the context is
suspended; and draining the pending queue lands the gain node exactly
on the current Target Volume. -/
def LoopInv (L : Loop) : Prop :=
  (L.s.ctx = none ↔ L.s.gain = none) ∧
  (L.s.ctx ≠ some CtxState.suspended → L.pending = []) ∧
  (L.s.gain = none ∨
    execGain L.s.currentVolume L.pending L.s.gain = some L.s.currentVolume)

/-! ### Activation-gate machine

Lines 372–374 register `handleUserActivation` for five event types,
each with `{ once: true }`: the *per-type* listener is removed after
its first invocation, but each of the five registrations can fire
once. -/

/-- The five gesture types registered at line 372. -/
def gestureEventTypes : List String :=
  ["click", "touchstart", "keydown", "mousedown", "pointerdown"]

/-- The activation gate's observable state: which per-type once
listeners are still armed, how often the handler has been invoked, how
often its resume work (the body guarded by `state === 'suspended'`,
lines 357–364) has run, and whether the context is still suspended. -/
structure GateState where
  armed : List String
  fires : Nat
  work : Nat
  ctxSuspended : Bool
deriving DecidableEq, Repr

/-- The gate as armed by lines 372–374, on a page whose context starts
suspended. -/
def initialGate : GateState :=
  { armed := gestureEventTypes, fires := 0, work := 0, ctxSuspended := true }

/-- Dispatching a user event of type `t`: a still-armed `once` listener
for `t` is removed and the handler invoked; the handler performs its
resume work only while the context reads `suspended` (the state only
leaves `suspended` when a resume completes). -/
def dispatchGesture (t : String) (g : GateState) : GateState :=
  if t ∈ g.armed then
    { g with
      armed := g.armed.erase t
      fires := g.fires + 1
      work := if g.ctxSuspended then g.work + 1 else g.work }
  else g

/-- A resume initiated by the handler completes: the context leaves the
suspended state. -/
def gestureResumeDone (g : GateState) : GateState :=
  { g with ctxSuspended := false }

/-- Gate-level events: user input of a given type, or resume
completion. -/
inductive GateEv
  | input (t : String)
  | resumed

/-- Dispatch one gate event. -/
def gateStep (g : GateState) : GateEv → GateState
  | .input t => dispatchGesture t g
  | .resumed => gestureResumeDone g

/-- Run a trace of gate events. -/
def gateRun (trace : List GateEv) (g : GateState) : GateState :=
  trace.foldl gateStep g

/-! ### Concrete states for counterexamples and witnesses -/

/-- A page state in which the audio graph is up and element `0` is
discovered but not yet wired. -/
def readyS : S :=
  { initialS with ctx := some CtxState.running, gain := some 1, mediaElements := [0] }

/-- A page state with the graph up, elements `0` and `1` tracked and
only `0` wired, as before teardown. -/
def preCleanupS : S :=
  { initialS with
      ctx := some CtxState.running
      gain := some 2
      mediaElements := [0, 1]
      connected := [0]
      elems := fun x =>
        if x = 0 then { volume := 1, audioSourceNode := true, volumeControllerConnected := true }
        else { volume := 1, audioSourceNode := false, volumeControllerConnected := false } }

/-- A suspended page whose Target Volume was set to 3.5 before any
gesture, with element `0` tracked but not yet wired. -/
def preGestureS : S :=
  { initialS with
      currentVolume := 7 / 2
      ctx := some CtxState.suspended
      gain := some 1
      mediaElements := [0] }

/-- A running page tracking elements `0` and `1`, of which `1` has
since been removed from the document (the attachment predicate of the
concrete runs keeps only element `0`). -/
def reconcileS : S :=
  { initialS with
      ctx := some CtxState.running
      gain := some 1
      mediaElements := [0, 1] }

/-- Fixed platform parameters for concrete runs: audio supported,
context created suspended, every wiring succeeds, everything
attached. -/
def P0 : Params :=
  { supported := true
    startState := CtxState.suspended
    connectOk := fun _ => true
    attached := fun _ => true }

/-- A concrete interleaving: two volume requests land while the
context is suspended, then the resume completes and the pending
continuations run in FIFO order. -/
def trace0 : List Ev :=
  [Ev.set 2 [] 1000, Ev.set 3 [] 1100, Ev.resumeDone]

/-! ### Preservation lemmas -/

/-- A state projection fixed by every step of a fold is fixed by the
fold. -/
theorem foldl_fix {σ β γ : Type} (f : σ → γ) (g : σ → β → σ)
    (h : ∀ st b, f (g st b) = f st) :
    ∀ (l : List β) (st : σ), f (l.foldl g st) = f st := by
  intro l
  induction l with
  | nil => intro st; rfl
  | cons b l ih => intro st; rw [List.foldl_cons, ih, h]

/-- `connectElementToWebAudio` only ever rewrites the per-element map
and the connection registry. -/
theorem connect_snd_shape (ok : Nat → Bool) (e : Nat) (s : S) :
    ∃ el co, (connectElementToWebAudio ok e s).2 =
      { s with elems := el, connected := co } := by
  unfold connectElementToWebAudio
  split
  · exact ⟨s.elems, s.connected, rfl⟩
  split
  · exact ⟨s.elems, s.connected, rfl⟩
  split
  · exact ⟨_, _, rfl⟩
  · exact ⟨_, _, rfl⟩

theorem connect_snd_gain (ok : Nat → Bool) (e : Nat) (s : S) :
    ((connectElementToWebAudio ok e s).2).gain = s.gain := by
  obtain ⟨el, co, h⟩ := connect_snd_shape ok e s
  rw [h]

theorem connect_snd_ctx (ok : Nat → Bool) (e : Nat) (s : S) :
    ((connectElementToWebAudio ok e s).2).ctx = s.ctx := by
  obtain ⟨el, co, h⟩ := connect_snd_shape ok e s
  rw [h]

theorem connect_snd_currentVolume (ok : Nat → Bool) (e : Nat) (s : S) :
    ((connectElementToWebAudio ok e s).2).currentVolume = s.currentVolume := by
  obtain ⟨el, co, h⟩ := connect_snd_shape ok e s
  rw [h]

theorem connect_snd_lastMediaQuery (ok : Nat → Bool) (e : Nat) (s : S) :
    ((connectElementToWebAudio ok e s).2).lastMediaQuery = s.lastMediaQuery := by
  obtain ⟨el, co, h⟩ := connect_snd_shape ok e s
  rw [h]

theorem connect_snd_mediaElements (ok : Nat → Bool) (e : Nat) (s : S) :
    ((connectElementToWebAudio ok e s).2).mediaElements = s.mediaElements := by
  obtain ⟨el, co, h⟩ := connect_snd_shape ok e s
  rw [h]

theorem find_gain (ok : Nat → Bool) (now : Int) (doc : List Nat) (s : S) :
    (findMediaElements ok now doc s).gain = s.gain := by
  unfold findMediaElements
  split
  · rfl
  · exact foldl_fix S.gain _ (fun st b => connect_snd_gain ok b st) _ _

theorem find_ctx (ok : Nat → Bool) (now : Int) (doc : List Nat) (s : S) :
    (findMediaElements ok now doc s).ctx = s.ctx := by
  unfold findMediaElements
  split
  · rfl
  · exact foldl_fix S.ctx _ (fun st b => connect_snd_ctx ok b st) _ _

theorem find_currentVolume (ok : Nat → Bool) (now : Int) (doc : List Nat) (s : S) :
    (findMediaElements ok now doc s).currentVolume = s.currentVolume := by
  unfold findMediaElements
  split
  · rfl
  · exact foldl_fix S.currentVolume _ (fun st b => connect_snd_currentVolume ok b st) _ _

/-- A discovery pass that fires records its own timestamp. -/
theorem find_lastMediaQuery_of_fire (ok : Nat → Bool) (now : Int)
    (doc : List Nat) (s : S)
    (h : ¬ now - s.lastMediaQuery < mediaQueryThrottleTime) :
    (findMediaElements ok now doc s).lastMediaQuery = now := by
  unfold findMediaElements
  rw [if_neg h]
  exact foldl_fix S.lastMediaQuery _ (fun st b => connect_snd_lastMediaQuery ok b st) _ _

theorem prune_gain (ok att : Nat → Bool) (s : S) :
    (pruneAndConnect ok att s).gain = s.gain := by
  unfold pruneAndConnect
  refine (foldl_fix S.gain _ (fun st b => ?_) _ _).trans rfl
  dsimp only
  split
  · exact connect_snd_gain ok b st
  · rfl

theorem prune_ctx (ok att : Nat → Bool) (s : S) :
    (pruneAndConnect ok att s).ctx = s.ctx := by
  unfold pruneAndConnect
  refine (foldl_fix S.ctx _ (fun st b => ?_) _ _).trans rfl
  dsimp only
  split
  · exact connect_snd_ctx ok b st
  · rfl

theorem prune_currentVolume (ok att : Nat → Bool) (s : S) :
    (pruneAndConnect ok att s).currentVolume = s.currentVolume := by
  unfold pruneAndConnect
  refine (foldl_fix S.currentVolume _ (fun st b => ?_) _ _).trans rfl
  dsimp only
  split
  · exact connect_snd_currentVolume ok b st
  · rfl

/-- The prune step of `connectAllMediaElements` leaves exactly the
attached tracked elements; the connection loop adds none. -/
theorem prune_mediaElements (ok att : Nat → Bool) (s : S) :
    (pruneAndConnect ok att s).mediaElements = s.mediaElements.filter att := by
  unfold pruneAndConnect
  refine (foldl_fix S.mediaElements _ (fun st b => ?_) _ _).trans rfl
  dsimp only
  split
  · exact connect_snd_mediaElements ok b st
  · rfl

theorem apply_currentVolume (v : Vol) (s : S) :
    ((applyVolumeWithWebAudio v s).2).currentVolume = s.currentVolume := by
  unfold applyVolumeWithWebAudio
  split <;> rfl

theorem apply_ctx (v : Vol) (s : S) :
    ((applyVolumeWithWebAudio v s).2).ctx = s.ctx := by
  unfold applyVolumeWithWebAudio
  split <;> rfl

theorem init_currentVolume (sup : Bool) (st : CtxState) (s : S) :
    ((initializeAudioContext sup st s).2).currentVolume = s.currentVolume := by
  unfold initializeAudioContext
  split
  · rfl
  · split <;> rfl

theorem connectAll_currentVolume (ok att : Nat → Bool) (r : Bool) (s : S) :
    (connectAllMediaElements ok att r s).currentVolume = s.currentVolume := by
  unfold connectAllMediaElements
  split
  · rfl
  split
  · split
    · exact prune_currentVolume ok att _
    · rfl
  · exact prune_currentVolume ok att s

theorem connectAll_gain (ok att : Nat → Bool) (r : Bool) (s : S) :
    (connectAllMediaElements ok att r s).gain = s.gain := by
  unfold connectAllMediaElements
  split
  · rfl
  split
  · split
    · exact prune_gain ok att _
    · rfl
  · exact prune_gain ok att s

/-- The three possible outcomes of `initializeAudioContext`: cached
no-op, failed first attempt, successful first attempt. -/
theorem init_snd_cases (sup : Bool) (st : CtxState) (s : S) :
    (initializeAudioContext sup st s).2 = s ∨
    (initializeAudioContext sup st s).2 =
      { s with initializationAttempted := true } ∨
    (initializeAudioContext sup st s).2 =
      { s with initializationAttempted := true, ctx := some st,
               gain := some s.currentVolume } := by
  unfold initializeAudioContext
  split
  · exact Or.inl rfl
  · split
    · exact Or.inr (Or.inr rfl)
    · exact Or.inr (Or.inl rfl)

theorem recordAndInit_currentVolume (sup : Bool) (st : CtxState) (v : Vol) (s : S) :
    (recordAndInit sup st v s).currentVolume = v := by
  unfold recordAndInit
  dsimp only
  split
  · rw [init_currentVolume]
  · rfl

theorem recordAndInit_ctx_of_some (sup : Bool) (st : CtxState) (v : Vol) (s : S)
    (c : CtxState) (hc : s.ctx = some c) :
    (recordAndInit sup st v s).ctx = some c := by
  unfold recordAndInit
  dsimp only
  rw [if_neg (by rw [hc]; simp : ¬ s.ctx.isNone = true)]
  exact hc

/-- `recordAndInit` keeps context and gain node existing together. -/
theorem recordAndInit_iff (sup : Bool) (st : CtxState) (v : Vol) (s : S)
    (hIff : s.ctx = none ↔ s.gain = none) :
    ((recordAndInit sup st v s).ctx = none ↔ (recordAndInit sup st v s).gain = none) := by
  unfold recordAndInit
  dsimp only
  split
  · rcases init_snd_cases sup st { s with currentVolume := v } with h | h | h <;> rw [h]
    · exact hIff
    · exact hIff
    · simp
  · exact hIff

/-- Whatever `setPageVolume` goes on to initialise, resume, discover or
connect, the Target Volume it records is its argument. -/
theorem setPageVolume_currentVolume (supported : Bool) (startState : CtxState)
    (ok att : Nat → Bool) (doc : List Nat) (now : Int) (r : Bool)
    (v : Vol) (s : S) :
    (setPageVolume supported startState ok att doc now r v s).currentVolume = v := by
  unfold setPageVolume
  rw [connectAll_currentVolume, find_currentVolume]
  simp only [apply_ite S.currentVolume, apply_currentVolume,
    recordAndInit_currentVolume, ite_self]

/-- A discovery pass inside the throttle window returns the state
untouched. -/
theorem find_throttled (ok : Nat → Bool) (now : Int) (doc : List Nat) (s : S)
    (h : now - s.lastMediaQuery < mediaQueryThrottleTime) :
    findMediaElements ok now doc s = s := by
  unfold findMediaElements
  rw [if_pos h]

/-- A state flagged as cleaned up is returned unchanged by `cleanup`. -/
theorem cleanup_of_cleaned {s : S} (h : s.isCleanedUp = true) :
    cleanup s = s := by
  unfold cleanup
  rw [if_pos h]

/-- With context and gain node present, applying a volume re-targets
the gain node to exactly that volume. -/
theorem apply_gain_of_some (v : Vol) (s : S)
    (hc : s.ctx.isNone = false) (hg : s.gain.isNone = false) :
    ((applyVolumeWithWebAudio v s).2).gain = some v := by
  unfold applyVolumeWithWebAudio
  rw [if_neg (by simp [hc, hg])]

theorem apply_mediaElements (v : Vol) (s : S) :
    ((applyVolumeWithWebAudio v s).2).mediaElements = s.mediaElements := by
  unfold applyVolumeWithWebAudio
  split <;> rfl

theorem connectAll_ctx_not_suspended (ok att : Nat → Bool) (r : Bool) (s : S)
    (h : s.ctx ≠ some CtxState.suspended) :
    (connectAllMediaElements ok att r s).ctx = s.ctx := by
  unfold connectAllMediaElements
  by_cases hng : (s.ctx.isNone || s.gain.isNone) = true
  · rw [if_pos hng]
  · rw [if_neg hng, if_neg h]
    exact prune_ctx ok att s

/-- On a usable, non-suspended context, `connectAllMediaElements`
leaves exactly the attached tracked elements. -/
theorem connectAll_media_not_suspended (ok att : Nat → Bool) (r : Bool) (s : S)
    (hns : s.ctx ≠ some CtxState.suspended)
    (hc : s.ctx.isNone = false) (hg : s.gain.isNone = false) :
    (connectAllMediaElements ok att r s).mediaElements =
      s.mediaElements.filter att := by
  unfold connectAllMediaElements
  rw [if_neg (by simp [hc, hg]), if_neg hns]
  exact prune_mediaElements ok att s

/-- Each gate event preserves the sum of handler invocations and
still-armed listeners. -/
theorem gateStep_fires_armed (g : GateState) (e : GateEv) :
    (gateStep g e).fires + (gateStep g e).armed.length =
      g.fires + g.armed.length := by
  cases e with
  | resumed => rfl
  | input t =>
      show (dispatchGesture t g).fires + (dispatchGesture t g).armed.length = _
      unfold dispatchGesture
      split
      · rename_i hm
        have hlen : (g.armed.erase t).length = g.armed.length - 1 :=
          List.length_erase_of_mem hm
        have hpos : 0 < g.armed.length := List.length_pos.mpr (List.ne_nil_of_mem hm)
        simp only [hlen]
        omega
      · rfl

theorem gateRun_fires_armed (trace : List GateEv) :
    ∀ g : GateState, (gateRun trace g).fires + (gateRun trace g).armed.length =
      g.fires + g.armed.length := by
  induction trace with
  | nil => intro g; rfl
  | cons e tr ih =>
      intro g
      show (gateRun tr (gateStep g e)).fires + (gateRun tr (gateStep g e)).armed.length = _
      rw [ih (gateStep g e), gateStep_fires_armed]

/-! ### Event-loop invariant lemmas -/

theorem execGain_append (cur : Vol) :
    ∀ (p q : List Payload) (g : Option Vol),
      execGain cur (p ++ q) g = execGain cur q (execGain cur p g) := by
  intro p
  induction p with
  | nil => intro q g; rfl
  | cons pl p ih => intro q g; exact ih q _

theorem execGain_some (cur : Vol) :
    ∀ (p : List Payload) (g0 : Vol), ∃ g1, execGain cur p (some g0) = some g1 := by
  intro p
  induction p with
  | nil => intro g0; exact ⟨g0, rfl⟩
  | cons pl p ih =>
      intro g0
      cases pl with
      | applyCaptured v => exact ih v
      | connectPending => exact ih g0
      | gestureResume => exact ih cur

theorem execGain_of_none (cur : Vol) :
    ∀ p : List Payload, execGain cur p none = none := by
  intro p
  induction p with
  | nil => rfl
  | cons pl p ih => cases pl <;> exact ih

theorem apply_gain_none (v : Vol) (s : S) (hg : s.gain = none) :
    ((applyVolumeWithWebAudio v s).2).gain = none := by
  unfold applyVolumeWithWebAudio
  split
  · exact hg
  · rename_i h
    exact absurd (by simp [hg]) h

theorem execPayload_ctx (P : Params) (s : S) (pl : Payload) :
    (execPayload P s pl).ctx = s.ctx := by
  cases pl with
  | applyCaptured v => exact apply_ctx v s
  | connectPending =>
      simp only [execPayload]
      split
      · rfl
      · exact prune_ctx P.connectOk P.attached s
  | gestureResume =>
      simp only [execPayload]
      split
      · exact apply_ctx _ s
      · exact (prune_ctx P.connectOk P.attached _).trans (apply_ctx _ s)

theorem execPayload_currentVolume (P : Params) (s : S) (pl : Payload) :
    (execPayload P s pl).currentVolume = s.currentVolume := by
  cases pl with
  | applyCaptured v => exact apply_currentVolume v s
  | connectPending =>
      simp only [execPayload]
      split
      · rfl
      · exact prune_currentVolume P.connectOk P.attached s
  | gestureResume =>
      simp only [execPayload]
      split
      · exact apply_currentVolume _ s
      · exact (prune_currentVolume P.connectOk P.attached _).trans (apply_currentVolume _ s)

theorem execPayload_gain_none (P : Params) (s : S) (pl : Payload)
    (hg : s.gain = none) : (execPayload P s pl).gain = none := by
  cases pl with
  | applyCaptured v => exact apply_gain_none v s hg
  | connectPending =>
      simp only [execPayload]
      split
      · exact hg
      · exact (prune_gain P.connectOk P.attached s).trans hg
  | gestureResume =>
      simp only [execPayload]
      split
      · exact apply_gain_none _ s hg
      · exact (prune_gain P.connectOk P.attached _).trans (apply_gain_none _ s hg)

/-- Running the pending continuations on a running context keeps the
context running, leaves the Target Volume alone, and moves the gain
node exactly as `execGain` describes. -/
theorem foldl_execPayload (P : Params) :
    ∀ (p : List Payload) (s : S), s.ctx = some CtxState.running →
      ((p.foldl (execPayload P) s).ctx = some CtxState.running ∧
       (p.foldl (execPayload P) s).currentVolume = s.currentVolume ∧
       (p.foldl (execPayload P) s).gain = execGain s.currentVolume p s.gain) := by
  intro p
  induction p with
  | nil => intro s h; exact ⟨h, rfl, rfl⟩
  | cons pl p ih =>
      intro s h
      have hctx' : (execPayload P s pl).ctx = some CtxState.running := by
        rw [execPayload_ctx]; exact h
      obtain ⟨ih1, ih2, ih3⟩ := ih (execPayload P s pl) hctx'
      refine ⟨ih1, ih2.trans (execPayload_currentVolume P s pl), ?_⟩
      show (p.foldl (execPayload P) (execPayload P s pl)).gain = _
      rw [ih3, execPayload_currentVolume]
      cases hsg : s.gain with
      | none =>
          rw [execPayload_gain_none P s pl hsg]
          cases pl <;> rfl
      | some g0 =>
          cases pl with
          | applyCaptured v =>
              have hv : (execPayload P s (Payload.applyCaptured v)).gain = some v :=
                apply_gain_of_some v s (by rw [h]; rfl) (by rw [hsg]; rfl)
              rw [hv]
              rfl
          | connectPending =>
              have hv : (execPayload P s Payload.connectPending).gain = some g0 := by
                simp only [execPayload]
                split
                · exact hsg
                · exact (prune_gain P.connectOk P.attached s).trans hsg
              rw [hv]
              rfl
          | gestureResume =>
              have hv : (execPayload P s Payload.gestureResume).gain =
                  some s.currentVolume := by
                simp only [execPayload]
                split
                · exact apply_gain_of_some _ s (by rw [h]; rfl) (by rw [hsg]; rfl)
                · exact (prune_gain P.connectOk P.attached _).trans
                    (apply_gain_of_some _ s (by rw [h]; rfl) (by rw [hsg]; rfl))
              rw [hv]
              rfl

/-- A loop state whose script state is suspended with a live gain node
and Target Volume `v`, and whose queue ends with the captured
application of `v` followed by a pending connection pass, satisfies the
invariant. -/
theorem loopInv_mk_suspended (p : List Payload) (s3 : S) (v : Vol)
    (hc : s3.ctx = some CtxState.suspended)
    (hcv : s3.currentVolume = v)
    (hg : s3.gain ≠ none) :
    LoopInv ⟨s3, p ++ [Payload.applyCaptured v, Payload.connectPending]⟩ := by
  refine ⟨⟨?_, ?_⟩, ?_, Or.inr ?_⟩
  · intro h
    rw [h] at hc
    cases hc
  · intro h
    exact absurd h hg
  · intro h
    exact absurd hc h
  · obtain ⟨g0, hg0⟩ := Option.ne_none_iff_exists'.mp hg
    show execGain s3.currentVolume _ s3.gain = _
    rw [hcv, hg0, execGain_append]
    obtain ⟨g1, hg1⟩ := execGain_some v p g0
    rw [hg1]
    rfl

/-- A loop state with an empty queue, context and gain node existing
together, and the gain node either absent or already on the Target
Volume, satisfies the invariant. -/
theorem loopInv_mk_quiet (s5 : S)
    (hiff : s5.ctx = none ↔ s5.gain = none)
    (hg : s5.gain = none ∨ s5.gain = some s5.currentVolume) :
    LoopInv ⟨s5, []⟩ := by
  refine ⟨hiff, fun _ => rfl, ?_⟩
  cases hg with
  | inl h => exact Or.inl h
  | inr h =>
      refine Or.inr ?_
      show execGain _ [] _ = _
      rw [h]
      rfl

theorem loopInv_stepSet (P : Params) (v : Vol) (doc : List Nat) (now : Int)
    (L : Loop) (hI : LoopInv L) : LoopInv (stepSet P v doc now L) := by
  obtain ⟨hIff, hPend, hGain⟩ := hI
  have h2cv := recordAndInit_currentVolume P.supported P.startState v L.s
  have h2iff := recordAndInit_iff P.supported P.startState v L.s hIff
  have h2pend : (recordAndInit P.supported P.startState v L.s).ctx ≠
      some CtxState.suspended → L.pending = [] := by
    intro h
    cases hx : L.s.ctx with
    | none =>
        refine hPend ?_
        rw [hx]
        intro hy
        cases hy
    | some c =>
        refine hPend ?_
        rw [hx]
        intro hy
        have hr := recordAndInit_ctx_of_some P.supported P.startState v L.s c hx
        rw [hr] at h
        exact h hy
  unfold stepSet
  dsimp only
  split
  · -- suspended: the volume application and connection pass are queued
    rename_i hsusp
    have hfc := find_ctx P.connectOk now doc (recordAndInit P.supported P.startState v L.s)
    have hfg := find_gain P.connectOk now doc (recordAndInit P.supported P.startState v L.s)
    have hfv := find_currentVolume P.connectOk now doc
      (recordAndInit P.supported P.startState v L.s)
    have hgns : (findMediaElements P.connectOk now doc
        (recordAndInit P.supported P.startState v L.s)).gain ≠ none := by
      rw [hfg]
      intro h
      have := h2iff.mpr h
      rw [this] at hsusp
      cases hsusp
    split
    · rename_i hgn
      exact absurd (Option.isNone_iff_eq_none.mp hgn) hgns
    · exact loopInv_mk_suspended L.pending _ v (by rw [hfc]; exact hsusp)
        (by rw [hfv]; exact h2cv) hgns
  · -- running, closed or absent: everything happens synchronously
    rename_i hns
    have hp : L.pending = [] := h2pend hns
    rw [hp]
    set s2 : S := recordAndInit P.supported P.startState v L.s with hs2
    set s4 : S := findMediaElements P.connectOk now doc (applyVolumeWithWebAudio v s2).2
      with hs4
    have hfc := find_ctx P.connectOk now doc (applyVolumeWithWebAudio v s2).2
    have hfg := find_gain P.connectOk now doc (applyVolumeWithWebAudio v s2).2
    have hfv := find_currentVolume P.connectOk now doc (applyVolumeWithWebAudio v s2).2
    have hac := apply_ctx v s2
    have hav := apply_currentVolume v s2
    have h5c : (if (s4.ctx.isNone || s4.gain.isNone) = true then s4
        else pruneAndConnect P.connectOk P.attached s4).ctx = s4.ctx := by
      split
      · rfl
      · exact prune_ctx P.connectOk P.attached s4
    have h5g : (if (s4.ctx.isNone || s4.gain.isNone) = true then s4
        else pruneAndConnect P.connectOk P.attached s4).gain = s4.gain := by
      split
      · rfl
      · exact prune_gain P.connectOk P.attached s4
    have h5v : (if (s4.ctx.isNone || s4.gain.isNone) = true then s4
        else pruneAndConnect P.connectOk P.attached s4).currentVolume =
        s4.currentVolume := by
      split
      · rfl
      · exact prune_currentVolume P.connectOk P.attached s4
    refine loopInv_mk_quiet _ ?_ ?_
    · rw [h5c, h5g, hs4, hfc, hfg, hac]
      cases hsg : s2.gain with
      | none =>
          rw [apply_gain_none v s2 hsg]
          rw [hsg] at h2iff
          exact h2iff
      | some g0 =>
          rw [apply_gain_of_some v s2 ?_ (by rw [hsg]; rfl)]
          · constructor
            · intro h
              have := h2iff.mp h
              rw [hsg] at this
              cases this
            · intro h
              cases h
          · cases hx : s2.ctx with
            | none =>
                have := h2iff.mp hx
                rw [hsg] at this
                cases this
            | some c => rfl
    · rw [h5g, h5v, hs4, hfg, hfv, hav]
      cases hsg : s2.gain with
      | none => exact Or.inl (apply_gain_none v s2 hsg)
      | some g0 =>
          refine Or.inr ?_
          rw [apply_gain_of_some v s2 ?_ (by rw [hsg]; rfl), h2cv]
          cases hx : s2.ctx with
          | none =>
              have := h2iff.mp hx
              rw [hsg] at this
              cases this
          | some c => rfl

theorem loopInv_stepGesture (L : Loop) (hI : LoopInv L) :
    LoopInv (stepGesture L) := by
  obtain ⟨hIff, hPend, hGain⟩ := hI
  unfold stepGesture
  split
  · rename_i hc
    have hgs : L.s.gain ≠ none := by
      intro h
      have := hIff.mpr h
      rw [this] at hc
      cases hc
    obtain ⟨g0, hg0⟩ := Option.ne_none_iff_exists'.mp hgs
    refine ⟨hIff, ?_, Or.inr ?_⟩
    · intro h
      exact absurd hc h
    · show execGain L.s.currentVolume _ L.s.gain = _
      rw [hg0, execGain_append]
      obtain ⟨g1, hg1⟩ := execGain_some L.s.currentVolume L.pending g0
      rw [hg1]
      rfl
  · exact ⟨hIff, hPend, hGain⟩

theorem loopInv_stepReconcile (P : Params) (doc : List Nat) (now : Int)
    (L : Loop) (hI : LoopInv L) : LoopInv (stepReconcile P doc now L) := by
  obtain ⟨hIff, hPend, hGain⟩ := hI
  unfold stepReconcile
  dsimp only
  have hfc := find_ctx P.connectOk now doc L.s
  have hfg := find_gain P.connectOk now doc L.s
  have hfv := find_currentVolume P.connectOk now doc L.s
  split
  · -- context or gain missing: nothing connects, queue unchanged
    refine ⟨by rw [hfc, hfg]; exact hIff, ?_, ?_⟩
    · intro h
      rw [hfc] at h
      exact hPend h
    · rcases hGain with h | h
      · exact Or.inl (by rw [hfg]; exact h)
      · exact Or.inr (by rw [hfg, hfv]; exact h)
  · split
    · -- suspended: the connection pass is deferred to the queue
      rename_i hguard hcs
      have hgs : (findMediaElements P.connectOk now doc L.s).gain ≠ none := by
        intro h
        rw [hfg] at h
        have := hIff.mpr h
        rw [hfc, this] at hcs
        cases hcs
      obtain ⟨g0, hg0⟩ := Option.ne_none_iff_exists'.mp hgs
      refine ⟨by rw [hfc, hfg]; exact hIff, ?_, Or.inr ?_⟩
      · intro h
        exact absurd hcs h
      · show execGain (findMediaElements P.connectOk now doc L.s).currentVolume _
          (findMediaElements P.connectOk now doc L.s).gain = _
        rw [hg0, execGain_append]
        rcases hGain with h | h
        · rw [hfg, h] at hg0
          cases hg0
        · have hg0' : L.s.gain = some g0 := by rw [← hfg]; exact hg0
          rw [hg0'] at h
          rw [hfv, h]
          rfl
    · -- running or closed: the connection pass runs now
      rename_i hguard hcs
      have hpd : L.pending = [] := by
        refine hPend ?_
        rw [← hfc]
        exact hcs
      rw [hpd]
      have hpc := prune_ctx P.connectOk P.attached (findMediaElements P.connectOk now doc L.s)
      have hpg := prune_gain P.connectOk P.attached (findMediaElements P.connectOk now doc L.s)
      have hpv := prune_currentVolume P.connectOk P.attached
        (findMediaElements P.connectOk now doc L.s)
      refine loopInv_mk_quiet _ (by rw [hpc, hpg, hfc, hfg]; exact hIff) ?_
      rcases hGain with h | h
      · exact Or.inl (by rw [hpg, hfg]; exact h)
      · rw [hpd] at h
        refine Or.inr ?_
        rw [hpg, hpv, hfg, hfv]
        exact h

theorem loopInv_stepResumeDone (P : Params) (L : Loop) (hI : LoopInv L) :
    LoopInv (stepResumeDone P L) := by
  obtain ⟨hIff, hPend, hGain⟩ := hI
  unfold stepResumeDone
  split
  · rename_i hc
    have hgs : L.s.gain ≠ none := by
      intro h
      have := hIff.mpr h
      rw [this] at hc
      cases hc
    obtain ⟨g0, hg0⟩ := Option.ne_none_iff_exists'.mp hgs
    have hrun : ({ L.s with ctx := some CtxState.running } : S).ctx =
        some CtxState.running := rfl
    obtain ⟨f1, f2, f3⟩ := foldl_execPayload P L.pending
      { L.s with ctx := some CtxState.running } hrun
    refine ⟨⟨?_, ?_⟩, fun _ => rfl, ?_⟩
    · intro h
      rw [h] at f1
      cases f1
    · intro h
      exfalso
      rw [f3] at h
      have hcur : ({ L.s with ctx := some CtxState.running } : S).gain = some g0 := hg0
      rw [hcur] at h
      obtain ⟨g1, hg1⟩ := execGain_some _ L.pending g0
      rw [hg1] at h
      cases h
    · refine Or.inr ?_
      show (L.pending.foldl (execPayload P) _).gain = some _
      rw [f3, f2]
      rcases hGain with h | h
      · exact absurd h hgs
      · exact h
  · exact ⟨hIff, hPend, hGain⟩

theorem loopInv_step (P : Params) (L : Loop) (e : Ev) (hI : LoopInv L) :
    LoopInv (stepEv P L e) := by
  cases e with
  | set v doc now => exact loopInv_stepSet P v doc now L hI
  | gesture => exact loopInv_stepGesture L hI
  | reconcile doc now => exact loopInv_stepReconcile P doc now L hI
  | resumeDone => exact loopInv_stepResumeDone P L hI

theorem loopInv_initial : LoopInv initialLoop :=
  ⟨⟨fun _ => rfl, fun _ => rfl⟩, fun _ => rfl, Or.inl rfl⟩

theorem loopInv_run (P : Params) (trace : List Ev) :
    ∀ L, LoopInv L → LoopInv (runLoop P trace L) := by
  induction trace with
  | nil => intro L h; exact h
  | cons e tr ih => intro L h; exact ih _ (loopInv_step P L e h)

/-! ### Claims -/

/-- C1 counterexample.  Wiring element `0` succeeds and returns `true`;
calling `connectElementToWebAudio` again on the now-Connected element
returns `false`, not `true` as the claim states: the early exit on the
`connectedElements` registry (line 62) yields `false`. -/
theorem connect_second_call_returns_false :
    (connectElementToWebAudio (fun _ => true) 0 readyS).1 = true ∧
    (connectElementToWebAudio (fun _ => true) 0
        ((connectElementToWebAudio (fun _ => true) 0 readyS).2)).1 = false := by
  constructor <;> rfl

/-- C1 (amended): calling `connect` twice on the same element yields
the same ConnectionState and issues no second wiring attempt — on an
element already in the connection registry, `connectElementToWebAudio`
is a no-op that returns `false` (not `true`): the whole state,
registry included, is returned unchanged. -/
theorem connect_already_connected_noop (ok : Nat → Bool) (e : Nat) (s : S)
    (h : s.connected.contains e = true) :
    connectElementToWebAudio ok e s = (false, s) := by
  unfold connectElementToWebAudio
  rw [if_pos]
  rw [h]
  simp

/-- C1 witness: after a successful first connection the registry holds
the element, and the amended theorem applies. -/
theorem connect_already_connected_noop_witness :
    ((connectElementToWebAudio (fun _ => true) 0 readyS).2).connected.contains 0 = true ∧
    connectElementToWebAudio (fun _ => true) 0
        ((connectElementToWebAudio (fun _ => true) 0 readyS).2) =
      (false, (connectElementToWebAudio (fun _ => true) 0 readyS).2) :=
  ⟨rfl, connect_already_connected_noop (fun _ => true) 0 _ rfl⟩

/-- C3: for every requested volume `v`, the `setVolume` message branch
applies `v` clamped to [0, 5] (the new Target Volume is exactly the
clamp), and the response echoes that clamped value with
`success = true`; at the boundaries, 6.0 clamps to 5.0 and -1.0 clamps
to 0.0. -/
theorem setVolume_clamps_and_echoes (supported : Bool) (startState : CtxState)
    (ok att : Nat → Bool) (doc : List Nat) (now : Int) (resumeOk : Bool)
    (v : Vol) (s : S) :
    (handleSetVolumeMessage supported startState ok att doc now resumeOk v s).1 =
      ⟨true, max 0 (min 5 v)⟩ ∧
    ((handleSetVolumeMessage supported startState ok att doc now resumeOk v s).2).currentVolume =
      max 0 (min 5 v) ∧
    clampVolume 6 = 5 ∧ clampVolume (-1) = 0 := by
  refine ⟨rfl, ?_, by norm_num [clampVolume], by norm_num [clampVolume]⟩
  show (setPageVolume supported startState ok att doc now resumeOk (clampVolume v) s).currentVolume = _
  rw [setPageVolume_currentVolume]
  rfl

/-- C6: a discovery pass that fires records its timestamp, and any
second `findMediaElements` call less than the 500 ms throttle interval
later is a complete no-op — the state, tracked elements included, is
returned unchanged, whatever the document then contains. -/
theorem discover_throttled_noop (ok1 ok2 : Nat → Bool) (t1 t2 : Int)
    (doc1 doc2 : List Nat) (s : S)
    (h1 : mediaQueryThrottleTime ≤ t1 - s.lastMediaQuery)
    (h2 : t2 - t1 < mediaQueryThrottleTime) :
    findMediaElements ok2 t2 doc2 (findMediaElements ok1 t1 doc1 s) =
      findMediaElements ok1 t1 doc1 s := by
  have hfire : ¬ t1 - s.lastMediaQuery < mediaQueryThrottleTime := not_lt.mpr h1
  apply find_throttled
  rw [find_lastMediaQuery_of_fire ok1 t1 doc1 s hfire]
  exact h2

/-- C6 witness: a first pass at t = 600 on a fresh page fires; a second
pass at t = 700 (100 ms later, under the 500 ms throttle) against a
changed document is a no-op. -/
theorem discover_throttled_noop_witness :
    mediaQueryThrottleTime ≤ 600 - initialS.lastMediaQuery ∧
    (700 : Int) - 600 < mediaQueryThrottleTime ∧
    findMediaElements (fun _ => true) 700 [0, 1]
        (findMediaElements (fun _ => true) 600 [] initialS) =
      findMediaElements (fun _ => true) 600 [] initialS :=
  ⟨by decide, by decide,
   discover_throttled_noop (fun _ => true) (fun _ => true) 600 700 [] [0, 1]
     initialS (by decide) (by decide)⟩

/-- C7: `initializeAudioContext` is idempotent.  On a fresh state the
first call returns `true` exactly when the platform supports audio
processing (it returns `false`, absorbed by the `catch`, when it does
not), and any subsequent call — whatever the platform then reports —
is a no-op returning the first call's cached result and state. -/
theorem ensureContext_idempotent (sup sup2 : Bool) (st st2 : CtxState) (s : S)
    (hA : s.initializationAttempted = false) (hC : s.ctx = none) :
    (initializeAudioContext sup st s).1 = sup ∧
    initializeAudioContext sup2 st2 ((initializeAudioContext sup st s).2) =
      ((initializeAudioContext sup st s).1,
       (initializeAudioContext sup st s).2) := by
  cases sup <;> simp [initializeAudioContext, hA, hC]

/-- C7 witness: on the fresh page state, a first `ensureContext` on an
unsupported platform reports `false`, and a later call on a platform
that would now succeed still reports the cached `false` and changes
nothing. -/
theorem ensureContext_idempotent_witness :
    initialS.initializationAttempted = false ∧ initialS.ctx = none ∧
    ((initializeAudioContext false CtxState.suspended initialS).1 = false ∧
     initializeAudioContext true CtxState.running
         ((initializeAudioContext false CtxState.suspended initialS).2) =
       ((initializeAudioContext false CtxState.suspended initialS).1,
        (initializeAudioContext false CtxState.suspended initialS).2)) :=
  ⟨rfl, rfl,
   ensureContext_idempotent false true CtxState.suspended CtxState.running
     initialS rfl rfl⟩

/-- C10: teardown resets the local volume of every tracked media
element to 1.0 — wired to the graph or not — and clears the tracking
collections; a second `cleanup` call is a no-op. -/
theorem cleanup_resets_and_idempotent (s : S) (e : Nat)
    (hm : s.mediaElements.contains e = true) (hc : s.isCleanedUp = false) :
    ((cleanup s).elems e).volume = 1 ∧
    (cleanup s).mediaElements = [] ∧
    (cleanup s).connected = [] ∧
    cleanup (cleanup s) = cleanup s := by
  have hdone : (cleanup s).isCleanedUp = true := by
    unfold cleanup
    rw [if_neg (by rw [hc]; exact Bool.false_ne_true)]
  have hm' : e ∈ s.mediaElements := by simpa using hm
  refine ⟨?_, ?_, ?_, cleanup_of_cleaned hdone⟩
  · unfold cleanup
    rw [if_neg (by rw [hc]; exact Bool.false_ne_true)]
    simp [hm']
  · unfold cleanup
    rw [if_neg (by rw [hc]; exact Bool.false_ne_true)]
  · unfold cleanup
    rw [if_neg (by rw [hc]; exact Bool.false_ne_true)]

/-- C10 witness: on a page with elements 0 (wired) and 1 (tracked,
never wired), cleanup resets element 1 to volume 1.0, empties the
collections, and a repeat cleanup changes nothing. -/
theorem cleanup_resets_and_idempotent_witness :
    preCleanupS.mediaElements.contains 1 = true ∧
    preCleanupS.isCleanedUp = false ∧
    (((cleanup preCleanupS).elems 1).volume = 1 ∧
     (cleanup preCleanupS).mediaElements = [] ∧
     (cleanup preCleanupS).connected = [] ∧
     cleanup (cleanup preCleanupS) = cleanup preCleanupS) :=
  ⟨rfl, rfl, cleanup_resets_and_idempotent preCleanupS 1 rfl rfl⟩

/-- C4 counterexample.  With all five once-listeners registered per
lines 372–374, a `mousedown` followed by a `click` — both before the
resume completes — invokes the activation handler twice and performs
its suspended-context work twice; the listener is not single-shot per
page lifetime. -/
theorem gesture_listener_fires_twice :
    (gateRun [GateEv.input "mousedown", GateEv.input "click"] initialGate).fires = 2 ∧
    (gateRun [GateEv.input "mousedown", GateEv.input "click"] initialGate).work = 2 := by
  constructor <;> decide

/-- C4 (amended): the activation listener fires at most once per
registered gesture type, not once per page lifetime: over any event
trace, handler invocations plus still-armed listeners stay at five (so
at most five firings), and re-dispatching a type whose once-listener
already fired is a no-op. -/
theorem gesture_listener_once_per_type (trace : List GateEv) (t : String)
    (g : GateState) (hnd : g.armed.Nodup) :
    (gateRun trace initialGate).fires + (gateRun trace initialGate).armed.length =
      gestureEventTypes.length ∧
    dispatchGesture t (dispatchGesture t g) = dispatchGesture t g := by
  constructor
  · rw [gateRun_fires_armed trace initialGate]
    rfl
  · by_cases hm : t ∈ g.armed
    · have hne : t ∉ g.armed.erase t := hnd.not_mem_erase
      simp [dispatchGesture, hm, hne]
    · simp [dispatchGesture, hm]

/-- C4 amended witness: the three-event trace mousedown, click, resumed
leaves three listeners armed after two firings, and a repeated click is
a no-op. -/
theorem gesture_listener_once_per_type_witness :
    initialGate.armed.Nodup ∧
    ((gateRun [GateEv.input "mousedown", GateEv.input "click", GateEv.resumed]
          initialGate).fires +
       (gateRun [GateEv.input "mousedown", GateEv.input "click", GateEv.resumed]
          initialGate).armed.length = gestureEventTypes.length ∧
     dispatchGesture "click" (dispatchGesture "click" initialGate) =
       dispatchGesture "click" initialGate) :=
  ⟨by decide,
   gesture_listener_once_per_type
     [GateEv.input "mousedown", GateEv.input "click", GateEv.resumed]
     "click" initialGate (by decide)⟩

/-- C8: on the first gesture that finds the context Suspended with the
graph built, the activation handler resumes it to Running, re-targets
the gain node to the recorded Target Volume without any new `setVolume`
call, leaves the Target Volume itself unchanged, and re-runs the
connection pass (tracked elements are pruned to the attached ones). -/
theorem gesture_reapplies_target (ok att : Nat → Bool) (s : S) (g : Vol)
    (hc : s.ctx = some CtxState.suspended) (hg : s.gain = some g) :
    (handleUserActivation ok att true s).ctx = some CtxState.running ∧
    (handleUserActivation ok att true s).gain = some s.currentVolume ∧
    (handleUserActivation ok att true s).currentVolume = s.currentVolume ∧
    (handleUserActivation ok att true s).mediaElements =
      s.mediaElements.filter att := by
  unfold handleUserActivation
  rw [if_pos hc, if_pos rfl]
  have hac : ((applyVolumeWithWebAudio
      ({ s with ctx := some CtxState.running } : S).currentVolume
      ({ s with ctx := some CtxState.running } : S)).2).ctx =
      some CtxState.running := by
    rw [apply_ctx]
  have hag : ((applyVolumeWithWebAudio
      ({ s with ctx := some CtxState.running } : S).currentVolume
      ({ s with ctx := some CtxState.running } : S)).2).gain =
      some s.currentVolume := by
    rw [apply_gain_of_some]
    · rfl
    · show s.gain.isNone = false
      rw [hg]
      rfl
  refine ⟨?_, ?_, ?_, ?_⟩
  · rw [connectAll_ctx_not_suspended]
    · exact hac
    · rw [hac]
      simp
  · rw [connectAll_gain]
    exact hag
  · rw [connectAll_currentVolume, apply_currentVolume]
  · rw [connectAll_media_not_suspended, apply_mediaElements]
    · rw [hac]
      simp
    · rw [hac]
      rfl
    · rw [hag]
      rfl

/-- C8 witness: Target Volume 3.5 recorded before any gesture on a
suspended page; the first gesture resumes the context and the gain node
reaches 3.5 with no further `setVolume`. -/
theorem gesture_reapplies_target_witness :
    preGestureS.ctx = some CtxState.suspended ∧
    preGestureS.gain = some 1 ∧
    ((handleUserActivation (fun _ => true) (fun _ => true) true preGestureS).ctx =
        some CtxState.running ∧
     (handleUserActivation (fun _ => true) (fun _ => true) true preGestureS).gain =
        some preGestureS.currentVolume ∧
     (handleUserActivation (fun _ => true) (fun _ => true) true preGestureS).currentVolume =
        preGestureS.currentVolume ∧
     (handleUserActivation (fun _ => true) (fun _ => true) true preGestureS).mediaElements =
        preGestureS.mediaElements.filter (fun _ => true)) :=
  ⟨rfl, rfl,
   gesture_reapplies_target (fun _ => true) (fun _ => true) preGestureS 1 rfl rfl⟩

/-- C9: after a reconcile pass on a usable running context, every
tracked element is attached to the document: the prune inside
`connectAllMediaElements` drops every tracked element whose
`isConnected` is false before connecting, so a removed element never
survives — and, the registry being keyed by identity, a distinct
element inserted later cannot inherit its entry. -/
theorem reconcile_prunes (ok att : Nat → Bool) (doc : List Nat) (now : Int)
    (r : Bool) (s : S) (g : Vol)
    (hc : s.ctx = some CtxState.running) (hg : s.gain = some g) :
    (∀ e ∈ (reconcile ok att doc now r s).mediaElements, att e = true) ∧
    (∀ e, att e = false → e ∉ (reconcile ok att doc now r s).mediaElements) := by
  have hfc : (findMediaElements ok now doc s).ctx = s.ctx := find_ctx ok now doc s
  have hfg : (findMediaElements ok now doc s).gain = s.gain := find_gain ok now doc s
  have hmedia : (reconcile ok att doc now r s).mediaElements =
      (findMediaElements ok now doc s).mediaElements.filter att := by
    unfold reconcile
    rw [connectAll_media_not_suspended]
    · rw [hfc, hc]
      simp
    · rw [hfc, hc]
      rfl
    · rw [hfg, hg]
      rfl
  constructor
  · intro e he
    rw [hmedia] at he
    exact List.of_mem_filter he
  · intro e hfa hmem
    rw [hmedia] at hmem
    have := List.of_mem_filter hmem
    rw [hfa] at this
    exact Bool.false_ne_true this

/-- C9 witness: a running page tracks elements 0 and 1; element 1 was
removed from the document.  After reconcile with a document containing
a new element 2, every tracked element is attached and the removed
element 1 is gone. -/
theorem reconcile_prunes_witness :
    reconcileS.ctx = some CtxState.running ∧
    reconcileS.gain = some 1 ∧
    ((∀ e ∈ (reconcile (fun _ => true) (fun e => e ≠ 1) [2] 1000 true
          reconcileS).mediaElements, (fun e => decide (e ≠ 1)) e = true) ∧
     (∀ e, (fun e => decide (e ≠ 1)) e = false →
        e ∉ (reconcile (fun _ => true) (fun e => e ≠ 1) [2] 1000 true
          reconcileS).mediaElements)) :=
  ⟨rfl, rfl,
   reconcile_prunes (fun _ => true) (fun e => decide (e ≠ 1)) [2] 1000 true
     reconcileS 1 rfl rfl⟩

/-- C5: Target Volume stays in [0, 5] across every write the script
performs: it starts at 1.0; the `setVolume` message path writes the
clamp of the request; and the initialization path that seeds it from
the persisted per-hostname percentage — which the storage contract
keeps in 0–500 — writes that value divided by 100, hence a value in
[0, 5]. -/
theorem targetVolume_in_range (supported : Bool) (st : CtxState)
    (ok att : Nat → Bool) (doc : List Nat) (now : Int) (r : Bool)
    (v sv : Vol) (s : S) (h0 : 0 ≤ sv) (h500 : sv ≤ 500) :
    (0 ≤ initialS.currentVolume ∧ initialS.currentVolume ≤ 5) ∧
    (0 ≤ ((handleSetVolumeMessage supported st ok att doc now r v s).2).currentVolume ∧
     ((handleSetVolumeMessage supported st ok att doc now r v s).2).currentVolume ≤ 5) ∧
    (0 ≤ (loadSavedVolume supported st ok att doc now r (some sv) s).currentVolume ∧
     (loadSavedVolume supported st ok att doc now r (some sv) s).currentVolume ≤ 5) := by
  have hmsg : ((handleSetVolumeMessage supported st ok att doc now r v s).2).currentVolume =
      clampVolume v := by
    show (setPageVolume supported st ok att doc now r (clampVolume v) s).currentVolume = _
    exact setPageVolume_currentVolume supported st ok att doc now r (clampVolume v) s
  have hload : (loadSavedVolume supported st ok att doc now r (some sv) s).currentVolume =
      sv / 100 := by
    show (setPageVolume supported st ok att doc now r (sv / 100) s).currentVolume = _
    exact setPageVolume_currentVolume supported st ok att doc now r (sv / 100) s
  refine ⟨⟨by norm_num [initialS], by norm_num [initialS]⟩, ⟨?_, ?_⟩, ⟨?_, ?_⟩⟩
  · rw [hmsg]
    exact le_max_left 0 (min 5 v)
  · rw [hmsg]
    exact max_le (by norm_num) (min_le_left 5 v)
  · rw [hload]
    positivity
  · rw [hload]
    rw [div_le_iff₀ (by norm_num : (0:ℚ) < 100)]
    linarith

/-- C5 witness: a stored per-hostname value of 350 percent seeds a
Target Volume of 3.5, inside [0, 5]; a request of 7 is clamped into
range. -/
theorem targetVolume_in_range_witness :
    (0 : Vol) ≤ 350 ∧ (350 : Vol) ≤ 500 ∧
    ((0 ≤ initialS.currentVolume ∧ initialS.currentVolume ≤ 5) ∧
     (0 ≤ ((handleSetVolumeMessage true CtxState.suspended (fun _ => true)
          (fun _ => true) [] 1000 true 7 initialS).2).currentVolume ∧
      ((handleSetVolumeMessage true CtxState.suspended (fun _ => true)
          (fun _ => true) [] 1000 true 7 initialS).2).currentVolume ≤ 5) ∧
     (0 ≤ (loadSavedVolume true CtxState.suspended (fun _ => true)
          (fun _ => true) [] 1000 true (some 350) initialS).currentVolume ∧
      (loadSavedVolume true CtxState.suspended (fun _ => true)
          (fun _ => true) [] 1000 true (some 350) initialS).currentVolume ≤ 5)) :=
  ⟨by norm_num, by norm_num,
   targetVolume_in_range true CtxState.suspended (fun _ => true) (fun _ => true)
     [] 1000 true 7 350 initialS (by norm_num) (by norm_num)⟩

/-- C2: whenever a run of the event loop is quiescent — every scheduled
volume application has executed, i.e. nothing is pending on an
in-flight resume — the gain node holds exactly the current Target
Volume: the last-applied Target Volume wins over any interleaving of
volume requests, gestures, reconcile passes and resume completions,
however many elements are attached. -/
theorem gain_tracks_target (P : Params) (trace : List Ev) (g : Vol)
    (hq : (runLoop P trace initialLoop).pending = [])
    (hg : (runLoop P trace initialLoop).s.gain = some g) :
    g = (runLoop P trace initialLoop).s.currentVolume := by
  obtain ⟨hIff, hPend, hGain⟩ := loopInv_run P trace initialLoop loopInv_initial
  rcases hGain with h | h
  · rw [hg] at h
    cases h
  · rw [hq, hg] at h
    exact Option.some.inj h

/-- C2 witness: volume requests for 2.0 then 3.0 land while the context
is suspended; when the resume completes, both captured applications run
in FIFO order and the gain node ends on the latest Target Volume,
3.0. -/
theorem gain_tracks_target_witness :
    (runLoop P0 trace0 initialLoop).pending = [] ∧
    (runLoop P0 trace0 initialLoop).s.gain = some 3 ∧
    (3 : Vol) = (runLoop P0 trace0 initialLoop).s.currentVolume :=
  ⟨by decide, by decide, gain_tracks_target P0 trace0 3 (by decide) (by decide)⟩

end VolumeController
